import Mathlib

/-!
Shallow embedding of the order checkout / stock reservation pipeline,
the product-catalog cache layer and the cart aggregate of the
Heritage-spparow/server repository, together with proofs settling the
frozen claims about its specification.

Sources embedded (translated definition by definition from the JS):
* `src/Models/Product.js`   - product schema: global `stock` counter plus a
  `sizes` array of per-size stock entries, `active` soft-delete flag,
  `price`/`discountPrice`, the `effectivePrice` virtual.
* `src/Models/Cart.js`      - cart schema, the `pre('save')` hook that merges
  duplicate `(product, size)` lines and recomputes totals from current
  product prices, and the `addItem` method.
* `src/Routes/Order.js` and `src/unnamed/part_004` - POST `/capture`
  (signature check, validation loop, order creation, stock decrement loop,
  cart clearing), POST `/` (cash-on-delivery creation), PUT `/:id/pay`,
  PUT `/:id/cancel`, PUT `/:id/status`.
* `src/Routes/ProductsEnhanced.js` (second, redis-cached variant) -
  GET `/:id` read-through cache, POST `/` create with invalidation,
  PUT `/:id` update, DELETE `/:id` soft delete.

Machine integers of the store are modelled as `Int` where the code can drive
them below zero (the mongoose `$inc` update bypasses the schema `min: 0`
validator) and as `Nat` where only nonnegative values arise.
-/

namespace ECom

/-- One entry of `productSchema.sizes`: a size label and its per-size stock
counter (`src/Models/Product.js` lines 83-89). -/
structure SizeEntry where
  name : String
  stock : Int
deriving Repr, DecidableEq, Inhabited

/-- A product document (`src/Models/Product.js`): the claim-relevant fields.
`stock` is the product-level counter (line 73), `sizes` the per-size
counters, `active` the soft-delete flag. -/
structure Product where
  pid : Nat
  name : String
  price : Nat
  discountPrice : Option Nat
  stock : Int
  sizes : List SizeEntry
  active : Bool
deriving Repr, DecidableEq, Inhabited

/-- Order status strings used throughout `src/Routes/Order.js`. -/
inductive OrderStatus
  | pending
  | processing
  | shipped
  | delivered
  | cancelled
deriving Repr, DecidableEq, Inhabited

/-- One line item snapshot stored inside an order document. -/
structure OrderItem where
  product : Nat
  name : String
  image : String
  price : Nat
  quantity : Nat
  size : Option String
deriving Repr, DecidableEq, Inhabited

/-- An order document: the fields the claims are about. -/
structure Order where
  oid : Nat
  user : Nat
  orderItems : List OrderItem
  isPaid : Bool
  isDelivered : Bool
  status : OrderStatus
  trackingNumber : Option String
deriving Repr, DecidableEq, Inhabited

/-- One cart line item (`src/Models/Cart.js` cartItemSchema). -/
structure CartItem where
  product : Nat
  quantity : Nat
  size : Option String
deriving Repr, DecidableEq, Inhabited

/-- A cart document, one per user (`src/Models/Cart.js`). -/
structure Cart where
  user : Nat
  items : List CartItem
  totalItems : Nat
  totalPrice : Nat
deriving Repr, DecidableEq, Inhabited

/-- The persistent store: product, order and cart collections. -/
structure DB where
  products : List Product
  orders : List Order
  carts : List Cart
deriving Repr, DecidableEq, Inhabited

/-- `Product.findById(pid)`. -/
def findProduct (db : DB) (pid : Nat) : Option Product :=
  db.products.find? (fun p => p.pid == pid)

/-- `Order.findById(oid)`. -/
def findOrder (db : DB) (oid : Nat) : Option Order :=
  db.orders.find? (fun o => o.oid == oid)

/-- `Cart.findOne(user)`. -/
def findCart (db : DB) (user : Nat) : Option Cart :=
  db.carts.find? (fun c => c.user == user)

/-- The decrement and restore operations of every order route are
`Product.findByIdAndUpdate(id, dollarInc stock delta)`: an unconditional
atomic increment of the product-level `stock` field of the product whose id
matches, with no condition on the current stock and no mention of `sizes`
(`src/Routes/Order.js` lines 175-179, 374-378, 512-516, 547-553;
`src/unnamed/part_004` lines 131-136, 377-382, 413-419). The mongoose
update path does not run the schema `min: 0` validator, so the counter can
go negative. -/
def incStock (ps : List Product) (pid : Nat) (delta : Int) : List Product :=
  ps.map (fun p => if p.pid == pid then { p with stock := p.stock + delta } else p)

/-- The stock reduction loop of a successful checkout: one unconditional
`$inc` of `-quantity` per line item. -/
def reduceStockList (ps : List Product) (items : List OrderItem) : List Product :=
  items.foldl (fun acc it => incStock acc it.product (-(it.quantity : Int))) ps

/-- The stock restore loop of cancellation: one unconditional `$inc` of
`+quantity` per line item. -/
def restoreStockList (ps : List Product) (items : List OrderItem) : List Product :=
  items.foldl (fun acc it => incStock acc it.product (it.quantity : Int)) ps

/-- `Cart.findOneAndUpdate(user, set items [] totalItems 0 totalPrice 0)`:
empties the cart of the given user if one exists; without upsert a missing
cart is left missing. -/
def clearCart (db : DB) (user : Nat) : DB :=
  { db with
    carts := db.carts.map (fun c =>
      if c.user == user then { c with items := [], totalItems := 0, totalPrice := 0 } else c) }

/-- A requested line item of a checkout payload (`req.body.orderItems`
entries): the client names a product id, a display name, a unit price, a
quantity and a size. -/
structure ReqItem where
  product : Nat
  name : String
  price : Nat
  quantity : Nat
  size : Option String
deriving Repr, DecidableEq, Inhabited

/-- Failures of the per-line validation loop of POST `/capture`. -/
inductive ItemsError
  | unavailable
  | insufficient (name : String)
deriving Repr, DecidableEq

/-- The validation and normalization loop of POST `/capture`
(`src/Routes/Order.js` lines 119-147): for each requested item look the
product up; reject the whole request if it is missing or inactive, or if
the product-level stock is below the requested quantity; otherwise push a
snapshot carrying the client-asserted price. The loop stops at the first
failing item, before any mutation. -/
def buildItems (db : DB) : List ReqItem → Except ItemsError (List OrderItem)
  | [] => Except.ok []
  | i :: rest =>
    match findProduct db i.product with
    | none => Except.error ItemsError.unavailable
    | some p =>
      if !p.active then Except.error ItemsError.unavailable
      else if p.stock < (i.quantity : Int) then Except.error (ItemsError.insufficient p.name)
      else
        match buildItems db rest with
        | Except.error e => Except.error e
        | Except.ok tail =>
            Except.ok ({ product := p.pid, name := p.name, image := "/placeholder.png",
                         price := i.price, quantity := i.quantity, size := i.size } :: tail)

/-- Responses of POST `/capture`. -/
inductive CaptureOutcome
  | sigError
  | productUnavailable
  | insufficientStock (name : String)
  | created (o : Order)
deriving Repr, DecidableEq

/-- POST `/capture` (`src/Routes/Order.js` lines 87-236): recompute the
expected signature as hmac of `razorpayOrderId ++ "|" ++ paymentId` under
the secret and reject on mismatch before touching the store; then validate
and normalize the items, create the paid order with status processing,
run the unconditional stock decrement loop, and clear the cart of the
purchasing user. The hmac primitive is passed in as a function parameter
(the code calls `crypto.createHmac("sha256", secret)`). -/
def captureOrder (hmac : String → String → String) (secret : String)
    (razorpayOrderId paymentId signature : String)
    (user : Nat) (orderItems : List ReqItem) (newOid : Nat) (db : DB) :
    CaptureOutcome × DB :=
  let expectedSignature := hmac secret (razorpayOrderId ++ "|" ++ paymentId)
  if expectedSignature ≠ signature then (CaptureOutcome.sigError, db)
  else
    match buildItems db orderItems with
    | Except.error ItemsError.unavailable => (CaptureOutcome.productUnavailable, db)
    | Except.error (ItemsError.insufficient n) => (CaptureOutcome.insufficientStock n, db)
    | Except.ok items =>
      let order : Order :=
        { oid := newOid, user := user, orderItems := items, isPaid := true,
          isDelivered := false, status := OrderStatus.processing, trackingNumber := none }
      let db1 := { db with orders := db.orders ++ [order] }
      let db2 := { db1 with products := reduceStockList db1.products items }
      let db3 := clearCart db2 user
      (CaptureOutcome.created order, db3)

/-- Program counter of one in-flight checkout attempt against a single
product. The capture handler performs its validation read
(`await Product.findById`, `src/Routes/Order.js` line 122) and its
decrement write (`await Product.findByIdAndUpdate`, line 176) as two
separate awaited store operations: between them the event loop may run any
number of steps of other concurrent requests. -/
inductive AttemptPhase
  | toValidate
  | toDecrement
  | failed
  | succeeded
deriving Repr, DecidableEq, Inhabited

/-- One concurrent checkout attempt for `quantity` units of product
`pid`, decomposed at its store round-trip boundaries. -/
structure CheckoutAttempt where
  pid : Nat
  quantity : Nat
  phase : AttemptPhase
deriving Repr, DecidableEq, Inhabited

/-- One atomic store round-trip of a checkout attempt, exactly as the
capture handler issues them: the validation read fails the attempt when the
product is missing, inactive or has product-level stock below the
requested quantity (the attempt then receives the insufficient-stock
response), and otherwise leaves the store untouched and proceeds; the
decrement write applies the unconditional `$inc` of `-quantity`. -/
def stepAttempt (ps : List Product) (a : CheckoutAttempt) : List Product × CheckoutAttempt :=
  match a.phase with
  | AttemptPhase.toValidate =>
    match ps.find? (fun p => p.pid == a.pid) with
    | none => (ps, { a with phase := AttemptPhase.failed })
    | some p =>
      if !p.active || p.stock < (a.quantity : Int) then
        (ps, { a with phase := AttemptPhase.failed })
      else (ps, { a with phase := AttemptPhase.toDecrement })
  | AttemptPhase.toDecrement =>
      (incStock ps a.pid (-(a.quantity : Int)), { a with phase := AttemptPhase.succeeded })
  | _ => (ps, a)

/-- Run a schedule of interleaved attempt steps: each schedule entry names
the attempt whose next store round-trip executes. An index with no
attempt, or an attempt that already finished, is a stutter step. -/
def runSched (ps : List Product) (attempts : List CheckoutAttempt) (sched : List Nat) :
    List Product × List CheckoutAttempt :=
  sched.foldl
    (fun st i =>
      match st.2[i]? with
      | none => st
      | some a =>
        let r := stepAttempt st.1 a
        (r.1, st.2.set i r.2))
    (ps, attempts)

/-- `order.save()` after in-memory mutation: every stored order whose id
matches is replaced by the mutated document. -/
def replaceOrder (os : List Order) (oid : Nat) (o' : Order) : List Order :=
  os.map (fun x => if x.oid == oid then o' else x)

/-- Responses of PUT `/:id/pay`. -/
inductive PayOutcome
  | notFound
  | notAuthorized
  | paid (o : Order)
deriving Repr, DecidableEq

/-- PUT `/:id/pay` (`src/Routes/Order.js` lines 491-529): look the order up,
check ownership, then mark it paid with status processing and run the
unconditional stock decrement loop over its line items. There is no guard
on the current status, on `isPaid`, or on available stock. -/
def payOrder (db : DB) (oid user : Nat) : PayOutcome × DB :=
  match findOrder db oid with
  | none => (PayOutcome.notFound, db)
  | some o =>
    if o.user ≠ user then (PayOutcome.notAuthorized, db)
    else
      let o' := { o with isPaid := true, status := OrderStatus.processing }
      (PayOutcome.paid o',
       { db with products := reduceStockList db.products o.orderItems,
                 orders := replaceOrder db.orders oid o' })

/-- Responses of PUT `/:id/cancel`. -/
inductive CancelOutcome
  | notFound
  | notAuthorized
  | cannotCancel
  | cancelled (o : Order)
deriving Repr, DecidableEq

/-- PUT `/:id/cancel` (`src/Routes/Order.js` lines 531-566): look the order
up, check ownership, reject shipped or delivered orders, otherwise set the
status to cancelled and, when the order is paid, run the unconditional
stock restore loop over its line items. The current status being already
cancelled is not checked, and `isPaid` is never reset. -/
def cancelOrder (db : DB) (oid user : Nat) : CancelOutcome × DB :=
  match findOrder db oid with
  | none => (CancelOutcome.notFound, db)
  | some o =>
    if o.user ≠ user then (CancelOutcome.notAuthorized, db)
    else if o.status = OrderStatus.shipped ∨ o.status = OrderStatus.delivered then
      (CancelOutcome.cannotCancel, db)
    else
      let o' := { o with status := OrderStatus.cancelled }
      (CancelOutcome.cancelled o',
       { db with
         products := if o.isPaid then restoreStockList db.products o.orderItems else db.products,
         orders := replaceOrder db.orders oid o' })

/-- Responses of PUT `/:id/status`. -/
inductive StatusOutcome
  | notFound
  | updated (o : Order)
deriving Repr, DecidableEq

/-- PUT `/:id/status` (`src/Routes/Order.js` lines 613-643): the
administrative status update. The validator only restricts the requested
status to the five known states; the transition itself is unguarded: any
found order is set to the requested status, a supplied tracking number is
stored, and entering delivered stamps `isDelivered`. -/
def updateOrderStatus (db : DB) (oid : Nat) (status : OrderStatus)
    (trackingNumber : Option String) : StatusOutcome × DB :=
  match findOrder db oid with
  | none => (StatusOutcome.notFound, db)
  | some o =>
    let o1 := { o with status := status }
    let o2 :=
      match trackingNumber with
      | some t => { o1 with trackingNumber := some t }
      | none => o1
    let o3 := if status = OrderStatus.delivered then { o2 with isDelivered := true } else o2
    (StatusOutcome.updated o3, { db with orders := replaceOrder db.orders oid o3 })

/-- Stock non-negativity of every product-level and per-size counter, the
invariant claimed for the pipeline. -/
def stockNonneg (db : DB) : Prop :=
  ∀ p ∈ db.products, 0 ≤ p.stock ∧ ∀ s ∈ p.sizes, 0 ≤ s.stock

instance (db : DB) : Decidable (stockNonneg db) := by
  unfold stockNonneg
  infer_instance

/-- Concrete store for the stock invariant claim: one active product with
product-level stock 0, and one pending unpaid order of user 7 holding one
unit of it. -/
def dbStockInv : DB :=
  { products := [{ pid := 1, name := "P", price := 10, discountPrice := none,
                   stock := 0, sizes := [], active := true }],
    orders := [{ oid := 1, user := 7,
                 orderItems := [{ product := 1, name := "P", image := "/placeholder.png",
                                  price := 10, quantity := 1, size := some "M" }],
                 isPaid := false, isDelivered := false,
                 status := OrderStatus.pending, trackingNumber := none }],
    carts := [] }

/-- Concrete store for the cancellation idempotence claim: one active
product with stock 5, and one paid processing order of user 7 holding one
unit of it. -/
def dbCancelTwice : DB :=
  { products := [{ pid := 1, name := "P", price := 10, discountPrice := none,
                   stock := 5, sizes := [], active := true }],
    orders := [{ oid := 1, user := 7,
                 orderItems := [{ product := 1, name := "P", image := "/placeholder.png",
                                  price := 10, quantity := 1, size := some "M" }],
                 isPaid := true, isDelivered := false,
                 status := OrderStatus.processing, trackingNumber := none }],
    carts := [] }

/-- An unpaid pending cash-on-delivery order of user 7. -/
def oCancelUnpaid : Order :=
  { oid := 1, user := 7,
    orderItems := [{ product := 1, name := "P", image := "/placeholder.png",
                     price := 10, quantity := 1, size := some "M" }],
    isPaid := false, isDelivered := false,
    status := OrderStatus.pending, trackingNumber := none }

/-- Concrete store holding the unpaid order, for the idempotence
witness. -/
def dbCancelUnpaid : DB :=
  { products := [{ pid := 1, name := "P", price := 10, discountPrice := none,
                   stock := 5, sizes := [], active := true }],
    orders := [oCancelUnpaid],
    carts := [] }

/-- Concrete store for the state machine claim: one delivered order. -/
def dbDelivered : DB :=
  { products := [],
    orders := [{ oid := 1, user := 7, orderItems := [],
                 isPaid := true, isDelivered := true,
                 status := OrderStatus.delivered, trackingNumber := none }],
    carts := [] }

/-- Values stored by the catalog cache: parsed JSON snapshots of reads. The
`JSON.stringify`/`JSON.parse` round-trip is the identity on the model. -/
inductive CacheValue
  | prod (p : Product)
  | cats (cs : List String)
  | plist (ps : List Product)
deriving Repr, DecidableEq

/-- The redis key space: an association list of key and cached value. -/
abbrev Cache := List (String × CacheValue)

/-- `redis.get(key)`. -/
def cacheGet (c : Cache) (k : String) : Option CacheValue :=
  (c.find? (fun e => e.1 == k)).map (fun e => e.2)

/-- `redis.setex(key, ttl, value)`; expiry is not modelled beyond the
entry existing until deleted or flushed. -/
def cacheSet (c : Cache) (k : String) (v : CacheValue) : Cache :=
  (k, v) :: c.filter (fun e => !(e.1 == k))

/-- `redis.del(key)`. -/
def cacheDel (c : Cache) (k : String) : Cache :=
  c.filter (fun e => !(e.1 == k))

/-- `redis.flushall()`. -/
def cacheFlushAll (_c : Cache) : Cache :=
  []

/-- Cache key of a single-product read, the template string `product:id`. -/
def productKey (pid : Nat) : String :=
  "product:" ++ toString pid

/-- Results of the cached single-product read. -/
inductive ProductReadResult
  | hit (v : CacheValue)
  | fresh (p : Product)
  | missing
deriving Repr, DecidableEq

/-- GET `/:id` of the cached products route (`src/Routes/ProductsEnhanced.js`
lines 527-559): serve the cached value when the key is present, otherwise
read the active product from the store, cache it, and serve it. -/
def getProductEnhanced (db : DB) (cache : Cache) (pid : Nat) : ProductReadResult × Cache :=
  match cacheGet cache (productKey pid) with
  | some v => (ProductReadResult.hit v, cache)
  | none =>
    match db.products.find? (fun p => p.pid == pid && p.active) with
    | none => (ProductReadResult.missing, cache)
    | some p => (ProductReadResult.fresh p, cacheSet cache (productKey pid) (CacheValue.prod p))

/-- POST `/` of the cached products route (lines 569-653): create the
product, then invalidate by deleting the category key and the product key
and flushing the whole cache. -/
def createProductEnhanced (db : DB) (cache : Cache) (p : Product) : DB × Cache :=
  let db1 := { db with products := db.products ++ [p] }
  let c1 := cacheDel cache "product_categories"
  let c2 := cacheDel c1 (productKey p.pid)
  (db1, cacheFlushAll c2)

/-- The request-body fields of the product update that the claims touch;
each present field overwrites, each absent field keeps the stored value
(the `name ?? product.name` pattern of lines 774-786). -/
structure ProductUpdate where
  name : Option String
  price : Option Nat
  sizes : Option (List SizeEntry)
  active : Option Bool
deriving Repr, DecidableEq

/-- Field merge of PUT `/:id` (lines 774-791). -/
def applyProductUpdate (u : ProductUpdate) (p : Product) : Product :=
  { p with
    name := u.name.getD p.name,
    price := u.price.getD p.price,
    sizes := u.sizes.getD p.sizes,
    active := u.active.getD p.active }

/-- Outcomes of the admin catalog mutations. -/
inductive MutationOutcome
  | notFound
  | serverError
  | ok
deriving Repr, DecidableEq

/-- PUT `/:id` of the cached products route (lines 709-813). After
`product.save()` succeeds the handler executes `await redis.del(...)`
(lines 796-798) where `redis` is an unbound identifier: the module imports
only `getRedis` and this handler never calls it, so a ReferenceError is
thrown into the catch block and a server-error response is returned. No
cache key is deleted, although the product mutation has already been
persisted. -/
def updateProductEnhanced (db : DB) (cache : Cache) (pid : Nat) (u : ProductUpdate) :
    MutationOutcome × DB × Cache :=
  match findProduct db pid with
  | none => (MutationOutcome.notFound, db, cache)
  | some _ =>
    (MutationOutcome.serverError,
     { db with products := db.products.map (fun p =>
         if p.pid == pid then applyProductUpdate u p else p) },
     cache)

/-- DELETE `/:id` of the cached products route (lines 819-856): soft delete
by setting `active` to false and saving. The handler performs no cache
operation of any kind. -/
def deleteProductEnhanced (db : DB) (cache : Cache) (pid : Nat) :
    MutationOutcome × DB × Cache :=
  match findProduct db pid with
  | none => (MutationOutcome.notFound, db, cache)
  | some _ =>
    (MutationOutcome.ok,
     { db with products := db.products.map (fun p =>
         if p.pid == pid then { p with active := false } else p) },
     cache)

/-- Concrete product for the cache invalidation claim. -/
def pCacheDemo : Product :=
  { pid := 1, name := "P", price := 10, discountPrice := none,
    stock := 5, sizes := [], active := true }

/-- Concrete store for the cache invalidation claim. -/
def dbCacheDemo : DB :=
  { products := [pCacheDemo], orders := [], carts := [] }

/-- Key of a cart line in the pre-save merge, the template string
`product _ size-or-NOSIZE` of `src/Models/Cart.js` line 56: an absent or
empty size string is falsy in JS and maps to NOSIZE. The product id and
the normalized size are kept as a pair. -/
def itemKey (i : CartItem) : Nat × String :=
  (i.product,
   match i.size with
   | some s => if s = "" then "NOSIZE" else s
   | none => "NOSIZE")

/-- One step of the merge map of the pre-save hook (Cart.js lines 55-63):
the first line with the same key accumulates the quantity in place,
otherwise the line is appended, preserving insertion order exactly as the
JS Map does. -/
def insertMerged : List CartItem → CartItem → List CartItem
  | [], i => [i]
  | j :: rest, i =>
    if itemKey j = itemKey i then
      { j with quantity := j.quantity + i.quantity } :: rest
    else j :: insertMerged rest i

/-- The dedup pass of `cartSchema.pre('save')` (Cart.js lines 52-65). -/
def dedupItems (items : List CartItem) : List CartItem :=
  items.foldl insertMerged []

/-- Total quantity carried by the lines of a given key. -/
def keyQuantity (k : Nat × String) : List CartItem → Nat
  | [] => 0
  | i :: rest => (if itemKey i = k then i.quantity else 0) + keyQuantity k rest

/-- The unit price the cart totals use (Cart.js line 71):
`discountPrice or price or 0` with JS falsiness, so an absent or zero
discount price falls back to the list price. -/
def cartUnitPrice (p : Product) : Nat :=
  match p.discountPrice with
  | some d => if d = 0 then p.price else d
  | none => p.price

/-- `cartSchema.pre('save')` (Cart.js lines 52-77): merge duplicate lines,
populate each line's product, and recompute `totalItems` and `totalPrice`
from the quantities and the current product prices. A dangling product
reference makes the total computation dereference null and throw, failing
the save; that is the `none` result. -/
def cartPreSave (db : DB) (c : Cart) : Option Cart :=
  let items := dedupItems c.items
  if items.all (fun i => (findProduct db i.product).isSome) then
    some { c with
      items := items,
      totalItems := items.foldl (fun t i => t + i.quantity) 0,
      totalPrice := items.foldl
        (fun t i => t + cartUnitPrice ((findProduct db i.product).getD default) * i.quantity) 0 }
  else none

/-- Merge of `cartSchema.methods.addItem` (Cart.js lines 80-96): the first
line with the same product and the identical size accumulates the
quantity, otherwise a new line is pushed at the end. -/
def addMerge : List CartItem → Nat → Nat → Option String → List CartItem
  | [], productId, quantity, size => [{ product := productId, quantity := quantity, size := size }]
  | i :: rest, productId, quantity, size =>
    if i.product = productId ∧ i.size = size then
      { i with quantity := i.quantity + quantity } :: rest
    else i :: addMerge rest productId quantity size

/-- `cart.addItem(productId, quantity, size)`. -/
def cartAddItem (c : Cart) (productId : Nat) (quantity : Nat) (size : Option String) : Cart :=
  { c with items := addMerge c.items productId quantity size }

/-- GET `/api/cart` (`src/unnamed/part_003` lines 492-513): an existing cart
is returned exactly as stored, with no save and hence no recomputation of
its totals; a missing cart is created empty and saved. -/
def getCart (db : DB) (user : Nat) : Option (Cart × DB) :=
  match findCart db user with
  | some c => some (c, db)
  | none =>
    match cartPreSave db { user := user, items := [], totalItems := 0, totalPrice := 0 } with
    | some c => some (c, { db with carts := db.carts ++ [c] })
    | none => none

/-- The `effectivePrice` virtual of the product schema
(`src/Models/Product.js` lines 190-192): the discount price when truthy
and strictly below the list price, the list price otherwise. -/
def effectivePrice (p : Product) : Nat :=
  match p.discountPrice with
  | some d => if d ≠ 0 ∧ d < p.price then d else p.price
  | none => p.price

/-- The mapping of the populated cart lines to requested items in the cart
branch of POST `/` (`src/unnamed/part_004` lines 233-241); a dangling
product reference would make the populated product null and the mapping
throw. -/
def cartToReqItems (db : DB) (items : List CartItem) : Option (List ReqItem) :=
  items.mapM (fun i => (findProduct db i.product).map (fun p =>
    ({ product := p.pid, name := p.name, price := effectivePrice p,
       quantity := i.quantity, size := i.size } : ReqItem)))

/-- Outcomes of POST `/` of `src/unnamed/part_004`. -/
inductive CodOutcome
  | noItems
  | serverError
  | unavailable (name : String)
  | insufficient (name : String)
  | created (o : Order)
deriving Repr, DecidableEq

/-- The item resolution of POST `/` (part_004 lines 221-242): use the
request items, and when the field is absent or the list empty fall back to
the populated cart contents, rejecting when the cart is missing or
empty. -/
def codResolveItems (db : DB) (user : Nat) (reqItems : Option (List ReqItem)) :
    Except CodOutcome (List ReqItem) :=
  if (reqItems.getD []).isEmpty then
    match findCart db user with
    | none => Except.error CodOutcome.noItems
    | some c =>
      if c.items.isEmpty then Except.error CodOutcome.noItems
      else
        match cartToReqItems db c.items with
        | none => Except.error CodOutcome.serverError
        | some items => Except.ok items
  else Except.ok (reqItems.getD [])

/-- The validation loop of POST `/` (part_004 lines 244-260): reject on the
first missing or inactive product, or on product-level stock below the
requested quantity. -/
def validateCodItems (db : DB) : List ReqItem → Option CodOutcome
  | [] => none
  | i :: rest =>
    match findProduct db i.product with
    | none => some (CodOutcome.unavailable i.name)
    | some p =>
      if !p.active then some (CodOutcome.unavailable i.name)
      else if p.stock < (i.quantity : Int) then some (CodOutcome.insufficient i.name)
      else validateCodItems db rest

/-- The resolved request items are stored as the order items of the
cash-on-delivery order without rebuilding a snapshot (part_004 line 269). -/
def reqToOrderItem (i : ReqItem) : OrderItem :=
  { product := i.product, name := i.name, image := "", price := i.price,
    quantity := i.quantity, size := i.size }

/-- POST `/` of `src/unnamed/part_004` (lines 202-303): resolve the items,
validate them, create the cash-on-delivery order, then clear the cart only
when the request carried no `orderItems` field at all: the guard is JS
truthiness of `orderItems` (line 279), so even a supplied empty list skips
the clearing although the order was built from the cart. No stock is
decremented on this route. The Order model file is absent from the tree;
the default status pending of an unpaid cash-on-delivery order follows the
spec, section 4.1 step 4. This function is the phase after item
resolution: validation, order creation and conditional cart clearing;
`reqSupplied` records whether the request carried an `orderItems`
field. -/
def codFinish (db : DB) (user : Nat) (reqSupplied : Bool) (items : List ReqItem) (newOid : Nat) :
    CodOutcome × DB :=
  match validateCodItems db items with
  | some e => (e, db)
  | none =>
    let order : Order :=
      { oid := newOid, user := user, orderItems := items.map reqToOrderItem,
        isPaid := false, isDelivered := false,
        status := OrderStatus.pending, trackingNumber := none }
    let db1 := { db with orders := db.orders ++ [order] }
    let db2 := if reqSupplied then db1 else clearCart db1 user
    (CodOutcome.created order, db2)

/-- The route: resolve, then validate and commit; the cart is cleared only
when the request carried no `orderItems` field (`reqItems.isSome` is the
JS truthiness of `orderItems` at line 279). -/
def codCreateOrder (db : DB) (user : Nat) (reqItems : Option (List ReqItem)) (newOid : Nat) :
    CodOutcome × DB :=
  match codResolveItems db user reqItems with
  | Except.error e => (e, db)
  | Except.ok items => codFinish db user reqItems.isSome items newOid

/-- Concrete product for the cart totals claim, before the price change. -/
def pCart10 : Product :=
  { pid := 1, name := "P", price := 10, discountPrice := none,
    stock := 5, sizes := [], active := true }

/-- The same product after `price` was changed to 20. -/
def pCart20 : Product :=
  { pCart10 with price := 20 }

/-- The cart of user 7 exactly as persisted while the price was 10. -/
def cartStale : Cart :=
  { user := 7, items := [{ product := 1, quantity := 1, size := none }],
    totalItems := 1, totalPrice := 10 }

/-- Concrete cart for the dedup claim: the same `(product, size)` line
added twice through `addItem`, with quantities 2 and 3. -/
def cartDedupDemo : Cart :=
  cartAddItem
    (cartAddItem { user := 7, items := [], totalItems := 0, totalPrice := 0 } 1 2 (some "M"))
    1 3 (some "M")

/-- Concrete store for the dedup claim. -/
def dbDedupDemo : DB :=
  { products := [pCart10], orders := [], carts := [] }

/-- Concrete store for the cart clearing claim: user 7 owns a nonempty
cart, and the active product is in stock. -/
def dbCodDemo : DB :=
  { products := [pCart10], orders := [],
    carts := [{ user := 7, items := [{ product := 1, quantity := 2, size := none }],
                totalItems := 2, totalPrice := 20 }] }

end ECom

namespace ECom

/-- A replaced order is what a lookup by the same id finds afterwards. -/
theorem replaceOrder_find (os : List Order) (oid : Nat) (o o' : Order)
    (hfind : os.find? (fun x => x.oid == oid) = some o) (h : o'.oid = oid) :
    (replaceOrder os oid o').find? (fun x => x.oid == oid) = some o' := by
  induction os with
  | nil => simp at hfind
  | cons x xs ih =>
    by_cases hx : (x.oid == oid) = true
    · simp only [replaceOrder, List.map_cons, hx, if_true]
      rw [List.find?_cons_of_pos]
      simp [h]
    · simp only [replaceOrder, List.map_cons, hx, if_false]
      rw [List.find?_cons_of_neg _ (by simp_all)]
      rw [List.find?_cons_of_neg _ (by simp_all)] at hfind
      exact ih hfind

/-- Replacing by the same document twice is one replacement. -/
theorem replaceOrder_self (os : List Order) (oid : Nat) (o' : Order) :
    replaceOrder (replaceOrder os oid o') oid o' = replaceOrder os oid o' := by
  unfold replaceOrder
  rw [List.map_map]
  apply List.map_congr_left
  intro x _
  by_cases hx : (x.oid == oid) = true
  · simp [Function.comp, hx]
  · simp [Function.comp, hx]

/-- Setting an already-cancelled status is the identity on the document. -/
theorem order_cancel_self (o : Order) (h : o.status = OrderStatus.cancelled) :
    { o with status := OrderStatus.cancelled } = o := by
  cases o
  simp_all

/-- C1, failure evaluated on the code: a single active product with
product-level stock 1; two concurrent capture checkouts each request
quantity 1; the interleaving runs both validation reads before either
decrement write (schedule 0,1,0,1). Both attempts succeed and the final
stock is -1, where the claim demands that at most one succeed, the other
receive an inventory-conflict error, and the final stock be 0. -/
theorem capture_oversell_bug :
    runSched
        [{ pid := 1, name := "P", price := 10, discountPrice := none,
           stock := 1, sizes := [{ name := "9", stock := 1 }], active := true }]
        [{ pid := 1, quantity := 1, phase := AttemptPhase.toValidate },
         { pid := 1, quantity := 1, phase := AttemptPhase.toValidate }]
        [0, 1, 0, 1]
      = ([{ pid := 1, name := "P", price := 10, discountPrice := none,
            stock := -1, sizes := [{ name := "9", stock := 1 }], active := true }],
         [{ pid := 1, quantity := 1, phase := AttemptPhase.succeeded },
          { pid := 1, quantity := 1, phase := AttemptPhase.succeeded }]) := by
  decide

/-- C4: if the supplied signature differs from the hmac of
`gatewayOrderId ++ "|" ++ paymentId` under the secret, POST `/capture`
rejects with the signature error and returns the store unchanged: no order
is created, no stock counter changes, and the cart is untouched. -/
theorem capture_signature_reject (hmac : String → String → String) (secret : String)
    (razorpayOrderId paymentId signature : String)
    (user : Nat) (orderItems : List ReqItem) (newOid : Nat) (db : DB)
    (h : signature ≠ hmac secret (razorpayOrderId ++ "|" ++ paymentId)) :
    captureOrder hmac secret razorpayOrderId paymentId signature user orderItems newOid db
      = (CaptureOutcome.sigError, db) := by
  unfold captureOrder
  simp only [ne_eq]
  rw [if_pos (fun e => h e.symm)]

/-- Witness for C4 at a concrete input: a concrete keyed-concatenation hmac,
a tampered signature, and a nonempty store that the rejected capture leaves
untouched. -/
theorem capture_signature_reject_witness :
    ("bad-signature" : String) ≠ (fun s m => s ++ ":" ++ m) "k" ("oid" ++ "|" ++ "pid") ∧
    captureOrder (fun s m => s ++ ":" ++ m) "k" "oid" "pid" "bad-signature" 7
        [{ product := 1, name := "P", price := 10, quantity := 1, size := some "M" }] 1
        { products := [{ pid := 1, name := "P", price := 10, discountPrice := none,
                         stock := 5, sizes := [], active := true }],
          orders := [], carts := [] }
      = (CaptureOutcome.sigError,
         { products := [{ pid := 1, name := "P", price := 10, discountPrice := none,
                          stock := 5, sizes := [], active := true }],
           orders := [], carts := [] }) := by
  refine ⟨by decide, ?_⟩
  exact capture_signature_reject (fun s m => s ++ ":" ++ m) "k" "oid" "pid" "bad-signature" 7
    [{ product := 1, name := "P", price := 10, quantity := 1, size := some "M" }] 1
    { products := [{ pid := 1, name := "P", price := 10, discountPrice := none,
                     stock := 5, sizes := [], active := true }],
      orders := [], carts := [] }
    (by decide)

end ECom

namespace ECom

/-- C3, failure evaluated on the code: starting from a store in which every
stock counter is nonnegative (product-level stock 0), paying the pending
order for one unit runs the unconditional decrement loop and leaves the
product-level stock at -1, breaking the invariant the claim asserts for
every pipeline operation. The mongoose update path bypasses the schema
declaration `min: 0` of `src/Models/Product.js` line 76. -/
theorem pay_negative_stock_bug :
    stockNonneg dbStockInv ∧
    (payOrder dbStockInv 1 7).2.products
      = [{ pid := 1, name := "P", price := 10, discountPrice := none,
           stock := -1, sizes := [], active := true }] ∧
    ¬ stockNonneg (payOrder dbStockInv 1 7).2 := by
  refine ⟨by decide, by decide, by decide⟩

/-- C5, counterexample: cancelling the paid processing order of
`dbCancelTwice` once restores its one unit (stock 5 becomes 6); cancelling
the then already-cancelled order again returns the same success response
but restores the stock a second time (stock 7), so cancelling twice does
not yield the same final state as cancelling once, refuting the claim as
stated. -/
theorem cancel_twice_counterexample :
    (cancelOrder dbCancelTwice 1 7).1
      = CancelOutcome.cancelled
          { oid := 1, user := 7,
            orderItems := [{ product := 1, name := "P", image := "/placeholder.png",
                             price := 10, quantity := 1, size := some "M" }],
            isPaid := true, isDelivered := false,
            status := OrderStatus.cancelled, trackingNumber := none } ∧
    (cancelOrder (cancelOrder dbCancelTwice 1 7).2 1 7).1
      = (cancelOrder dbCancelTwice 1 7).1 ∧
    (findProduct (cancelOrder dbCancelTwice 1 7).2 1).map Product.stock = some 6 ∧
    (findProduct (cancelOrder (cancelOrder dbCancelTwice 1 7).2 1 7).2 1).map Product.stock
      = some 7 ∧
    (cancelOrder (cancelOrder dbCancelTwice 1 7).2 1 7).2 ≠ (cancelOrder dbCancelTwice 1 7).2 := by
  refine ⟨by decide, by decide, by decide, by decide, by decide⟩

/-- Computation of one cancellation in the successful branch. -/
theorem cancelOrder_found (db : DB) (oid u : Nat) (o : Order)
    (hfind : findOrder db oid = some o) (huser : o.user = u)
    (hterm : ¬(o.status = OrderStatus.shipped ∨ o.status = OrderStatus.delivered)) :
    cancelOrder db oid u
      = (CancelOutcome.cancelled { o with status := OrderStatus.cancelled },
         { db with
           products := if o.isPaid then restoreStockList db.products o.orderItems
                       else db.products,
           orders := replaceOrder db.orders oid { o with status := OrderStatus.cancelled } }) := by
  simp only [cancelOrder, hfind]
  rw [if_neg (by simp [huser]), if_neg hterm]

/-- C5 amended: cancelling an order that is cancellable (found, owned, not
shipped or delivered) succeeds; cancelling it again returns the very same
success response carrying the cancelled document, and when the order is
unpaid the second cancellation changes nothing at all. For a paid order
the stock restore loop reapplies on each cancellation, as the
counterexample shows, so full idempotence holds exactly for unpaid
orders. -/
theorem cancel_idempotent_amended (db : DB) (oid u : Nat) (o : Order)
    (hfind : findOrder db oid = some o) (huser : o.user = u)
    (hs : o.status ≠ OrderStatus.shipped) (hd : o.status ≠ OrderStatus.delivered) :
    (cancelOrder db oid u).1
        = CancelOutcome.cancelled { o with status := OrderStatus.cancelled } ∧
    (cancelOrder (cancelOrder db oid u).2 oid u).1 = (cancelOrder db oid u).1 ∧
    (o.isPaid = false → (cancelOrder (cancelOrder db oid u).2 oid u).2 = (cancelOrder db oid u).2) := by
  have hoid : o.oid = oid := by
    have := List.find?_some (by simpa [findOrder] using hfind)
    simpa using this
  have h1 := cancelOrder_found db oid u o hfind huser
    (by rintro (h | h); exact hs h; exact hd h)
  have hfind1 : findOrder (cancelOrder db oid u).2 oid
      = some { o with status := OrderStatus.cancelled } := by
    rw [h1]
    unfold findOrder
    exact replaceOrder_find db.orders oid o { o with status := OrderStatus.cancelled }
      (by simpa [findOrder] using hfind) hoid
  have h2 : cancelOrder (cancelOrder db oid u).2 oid u
      = (CancelOutcome.cancelled { o with status := OrderStatus.cancelled },
         { (cancelOrder db oid u).2 with
           products := if o.isPaid then
                         restoreStockList (cancelOrder db oid u).2.products o.orderItems
                       else (cancelOrder db oid u).2.products,
           orders := replaceOrder (cancelOrder db oid u).2.orders oid
                       { o with status := OrderStatus.cancelled } }) := by
    exact cancelOrder_found (cancelOrder db oid u).2 oid u
      { o with status := OrderStatus.cancelled } hfind1 huser
      (by rintro (h | h) <;> exact OrderStatus.noConfusion h)
  refine ⟨by rw [h1], by rw [h2, h1], ?_⟩
  intro hp
  rw [h2, h1]
  simp only [hp, Bool.false_eq_true, if_false]
  rw [replaceOrder_self]

/-- Witness for C5 amended at a concrete input: an unpaid pending
cash-on-delivery order, for which both cancellations return the same
success response and the second one changes nothing. -/
theorem cancel_idempotent_amended_witness :
    (cancelOrder dbCancelUnpaid 1 7).1
      = CancelOutcome.cancelled { oCancelUnpaid with status := OrderStatus.cancelled } ∧
    (cancelOrder (cancelOrder dbCancelUnpaid 1 7).2 1 7).1
      = (cancelOrder dbCancelUnpaid 1 7).1 ∧
    (cancelOrder (cancelOrder dbCancelUnpaid 1 7).2 1 7).2
      = (cancelOrder dbCancelUnpaid 1 7).2 := by
  have A := cancel_idempotent_amended dbCancelUnpaid 1 7 oCancelUnpaid
    (by decide) (by decide) (by decide) (by decide)
  exact ⟨A.1, A.2.1, A.2.2 rfl⟩

/-- C8, counterexample: the administrative status update moves the
delivered order of `dbDelivered` to pending, so there is an operation that
changes the status of an order in a terminal state, refuting the claim as
stated. -/
theorem delivered_exit_counterexample :
    (updateOrderStatus dbDelivered 1 OrderStatus.pending none).1
      = StatusOutcome.updated
          { oid := 1, user := 7, orderItems := [], isPaid := true, isDelivered := true,
            status := OrderStatus.pending, trackingNumber := none } ∧
    findOrder (updateOrderStatus dbDelivered 1 OrderStatus.pending none).2 1
      = some { oid := 1, user := 7, orderItems := [], isPaid := true, isDelivered := true,
               status := OrderStatus.pending, trackingNumber := none } := by
  refine ⟨by decide, by decide⟩

/-- C8 amended: only the cancel operation guards terminal states: on a
shipped or delivered order it rejects with a state-conflict response and
leaves the store unchanged. The pay operation moves any found owned order
to processing regardless of its current status, and the administrative
status update moves any found order to any requested status, so delivered
and cancelled orders are exitable and cancelled is reachable from every
state through those two operations. -/
theorem status_transitions_amended (db : DB) (oid u : Nat) (o : Order) (s : OrderStatus)
    (hfind : findOrder db oid = some o) (huser : o.user = u)
    (hterm : o.status = OrderStatus.shipped ∨ o.status = OrderStatus.delivered) :
    cancelOrder db oid u = (CancelOutcome.cannotCancel, db) ∧
    (∃ o1, (updateOrderStatus db oid s none).1 = StatusOutcome.updated o1 ∧ o1.status = s) ∧
    (∃ o2, (payOrder db oid u).1 = PayOutcome.paid o2 ∧ o2.status = OrderStatus.processing) := by
  refine ⟨?_, ?_, ?_⟩
  · simp only [cancelOrder, hfind]
    rw [if_neg (by simp [huser]), if_pos hterm]
  · simp only [updateOrderStatus, hfind]
    by_cases hsd : s = OrderStatus.delivered
    · exact ⟨_, by rw [if_pos hsd], by simp [hsd]⟩
    · exact ⟨_, by rw [if_neg hsd], by simp⟩
  · simp only [payOrder, hfind]
    rw [if_neg (by simp [huser])]
    exact ⟨_, rfl, rfl⟩

/-- Witness for C8 amended at a concrete input: the delivered order of
`dbDelivered`, with cancelled as the requested administrative status. -/
theorem status_transitions_amended_witness :
    cancelOrder dbDelivered 1 7 = (CancelOutcome.cannotCancel, dbDelivered) ∧
    (∃ o1, (updateOrderStatus dbDelivered 1 OrderStatus.cancelled none).1
             = StatusOutcome.updated o1 ∧ o1.status = OrderStatus.cancelled) ∧
    (∃ o2, (payOrder dbDelivered 1 7).1 = PayOutcome.paid o2 ∧
             o2.status = OrderStatus.processing) :=
  status_transitions_amended dbDelivered 1 7
    { oid := 1, user := 7, orderItems := [], isPaid := true, isDelivered := true,
      status := OrderStatus.delivered, trackingNumber := none }
    OrderStatus.cancelled (by decide) (by decide) (Or.inr (by decide))

end ECom

namespace ECom

/-- C2, counterexample: a product whose size entry M holds stock 5 but
whose product-level stock is 1, and a purchased line item of two units of
size M. The claimed decrement would subtract 2 from the M size entry
(whose stock 5 covers it); the decrement of the code leaves the sizes
array untouched and subtracts 2 from the product-level counter even though
its current value 1 is below the purchased quantity, driving it to -1.
Both halves of the claim (size scoping and the conditional guard) fail at
this input. -/
theorem sizeScopedDecrement_counterexample :
    reduceStockList
        [{ pid := 1, name := "P", price := 10, discountPrice := none,
           stock := 1, sizes := [{ name := "M", stock := 5 }], active := true }]
        [{ product := 1, name := "P", image := "/placeholder.png", price := 10,
           quantity := 2, size := some "M" }]
      = [{ pid := 1, name := "P", price := 10, discountPrice := none,
           stock := -1, sizes := [{ name := "M", stock := 5 }], active := true }] := by
  decide

/-- C2 amended: for every line item the decrement is an atomic but
unconditional update keyed by productId alone: every product keeps its
sizes array and active flag unchanged, and exactly the product whose id
matches has the purchased quantity subtracted from its product-level stock
counter, regardless of its current value. -/
theorem stock_decrement_amended (ps : List Product) (it : OrderItem) (p : Product)
    (hp : p ∈ ps) :
    ∃ q ∈ reduceStockList ps [it],
      q.pid = p.pid ∧ q.sizes = p.sizes ∧ q.active = p.active ∧
      q.stock = if p.pid = it.product then p.stock - (it.quantity : Int) else p.stock := by
  have hred : reduceStockList ps [it] = incStock ps it.product (-(it.quantity : Int)) := rfl
  rw [hred]
  unfold incStock
  by_cases hb : (p.pid == it.product) = true
  · refine ⟨{ p with stock := p.stock + -(it.quantity : Int) }, ?_, rfl, rfl, rfl, ?_⟩
    · have := List.mem_map_of_mem
        (fun x => if x.pid == it.product then { x with stock := x.stock + -(it.quantity : Int) }
                  else x) hp
      simpa [hb] using this
    · rw [if_pos (by simpa using hb)]
      show p.stock + -(it.quantity : Int) = p.stock - (it.quantity : Int)
      omega
  · refine ⟨p, ?_, rfl, rfl, rfl, ?_⟩
    · have := List.mem_map_of_mem
        (fun x => if x.pid == it.product then { x with stock := x.stock + -(it.quantity : Int) }
                  else x) hp
      simpa [hb] using this
    · rw [if_neg (by simpa using hb)]

/-- Witness for C2 amended at the concrete counterexample input. -/
theorem stock_decrement_amended_witness :
    ∃ q ∈ reduceStockList
        [{ pid := 1, name := "P", price := 10, discountPrice := none,
           stock := 1, sizes := [{ name := "M", stock := 5 }], active := true }]
        [{ product := 1, name := "P", image := "/placeholder.png", price := 10,
           quantity := 2, size := some "M" }],
      q.pid = ({ pid := 1, name := "P", price := 10, discountPrice := none,
                 stock := 1, sizes := [{ name := "M", stock := 5 }],
                 active := true } : Product).pid ∧
      q.sizes = [{ name := "M", stock := 5 }] ∧
      q.active = true ∧
      q.stock = if (1 : Nat) = 1 then (1 : Int) - (2 : Nat) else 1 :=
  stock_decrement_amended
    [{ pid := 1, name := "P", price := 10, discountPrice := none,
       stock := 1, sizes := [{ name := "M", stock := 5 }], active := true }]
    { product := 1, name := "P", image := "/placeholder.png", price := 10,
      quantity := 2, size := some "M" }
    { pid := 1, name := "P", price := 10, discountPrice := none,
      stock := 1, sizes := [{ name := "M", stock := 5 }], active := true }
    (by decide)

end ECom

namespace ECom

/-- C6, failure evaluated on the code: a read caches the active product
under its product key; the soft delete then deactivates the product while
performing no cache operation at all, so the subsequent read is served
from the cache and returns the pre-mutation value, an active product that
a fresh store read would no longer return. The update route also leaves
the cache untouched: its invalidation lines reference the unbound
identifier `redis` and throw, yielding a server error after the product
was already saved. -/
theorem softdelete_stale_cache_bug :
    getProductEnhanced dbCacheDemo [] 1
      = (ProductReadResult.fresh pCacheDemo, [("product:1", CacheValue.prod pCacheDemo)]) ∧
    deleteProductEnhanced dbCacheDemo [("product:1", CacheValue.prod pCacheDemo)] 1
      = (MutationOutcome.ok,
         { products := [{ pCacheDemo with active := false }], orders := [], carts := [] },
         [("product:1", CacheValue.prod pCacheDemo)]) ∧
    (getProductEnhanced
        { products := [{ pCacheDemo with active := false }], orders := [], carts := [] }
        [("product:1", CacheValue.prod pCacheDemo)] 1).1
      = ProductReadResult.hit (CacheValue.prod pCacheDemo) ∧
    pCacheDemo.active = true ∧
    updateProductEnhanced dbCacheDemo [("product:1", CacheValue.prod pCacheDemo)] 1
        { name := none, price := some 20, sizes := none, active := none }
      = (MutationOutcome.serverError,
         { products := [{ pCacheDemo with price := 20 }], orders := [], carts := [] },
         [("product:1", CacheValue.prod pCacheDemo)]) := by
  refine ⟨by decide, by decide, by decide, by decide, by decide⟩

/-- C7, counterexample: the cart of user 7 was persisted while the product
price was 10, storing totalPrice 10; after the price changes to 20 the
next cart read returns the stored cart with totalPrice 10, not a total
computed from the current price (which would be 20), refuting the claim as
stated. -/
theorem cart_read_stale_total_counterexample :
    cartPreSave { products := [pCart10], orders := [], carts := [] }
        { user := 7, items := [{ product := 1, quantity := 1, size := none }],
          totalItems := 0, totalPrice := 0 }
      = some cartStale ∧
    getCart { products := [pCart20], orders := [], carts := [cartStale] } 7
      = some (cartStale, { products := [pCart20], orders := [], carts := [cartStale] }) ∧
    cartStale.totalPrice = 10 ∧
    cartUnitPrice pCart20 * 1 = 20 := by
  refine ⟨by decide, by decide, by decide, by decide⟩

/-- C7 amended: a cart read returns the cart exactly as last persisted, so
its totals reflect the prices current at the last save; it is the persist
(the pre-save hook), not the read, that recomputes the totals from the
current product prices, ignoring whatever totals were stored before. -/
theorem cart_totals_recompute_amended (db : DB) (u pid qty n1 t1 : Nat) (p : Product)
    (hp : findProduct db pid = some p) :
    (∀ c, findCart db u = some c → getCart db u = some (c, db)) ∧
    cartPreSave db { user := u, items := [{ product := pid, quantity := qty, size := none }],
                     totalItems := n1, totalPrice := t1 }
      = some { user := u, items := [{ product := pid, quantity := qty, size := none }],
               totalItems := qty, totalPrice := cartUnitPrice p * qty } := by
  constructor
  · intro c hc
    unfold getCart
    rw [hc]
  · unfold cartPreSave
    have hd : dedupItems [{ product := pid, quantity := qty, size := none }]
        = [{ product := pid, quantity := qty, size := none }] := rfl
    rw [hd]
    simp [hp]

/-- Witness for C7 amended at a concrete input: the stored cart of user 7
and the product after its price change; the read returns the stored cart
unchanged, and the persist recomputes totalPrice to 20 regardless of the
stored 10. -/
theorem cart_totals_recompute_amended_witness :
    getCart { products := [pCart20], orders := [], carts := [cartStale] } 7
      = some (cartStale, { products := [pCart20], orders := [], carts := [cartStale] }) ∧
    cartPreSave { products := [pCart20], orders := [], carts := [cartStale] }
        { user := 7, items := [{ product := 1, quantity := 1, size := none }],
          totalItems := 1, totalPrice := 10 }
      = some { user := 7, items := [{ product := 1, quantity := 1, size := none }],
               totalItems := 1, totalPrice := cartUnitPrice pCart20 * 1 } := by
  have A := cart_totals_recompute_amended
    { products := [pCart20], orders := [], carts := [cartStale] } 7 1 1 1 10 pCart20
    (by decide)
  exact ⟨A.1 cartStale (by decide), A.2⟩

end ECom

namespace ECom

/-- Every cart belonging to the purchasing user is emptied with zeroed
totals by the cart clearing update. -/
theorem clearCart_user (db : DB) (u : Nat) :
    ∀ c ∈ (clearCart db u).carts, c.user = u →
      c.items = [] ∧ c.totalItems = 0 ∧ c.totalPrice = 0 := by
  intro c hc hcu
  unfold clearCart at hc
  simp only [List.mem_map] at hc
  obtain ⟨a, ha, rfl⟩ := hc
  by_cases h : (a.user == u) = true
  · simp [h]
  · rw [if_neg h] at hcu ⊢
    exact absurd (by simpa using hcu) (by simpa using h)

/-- The item resolution never produces a created outcome as its error. -/
theorem codResolveItems_ne_created (db : DB) (u : Nat) (r : Option (List ReqItem)) (o : Order) :
    codResolveItems db u r ≠ Except.error (CodOutcome.created o) := by
  unfold codResolveItems
  split
  · split
    · simp
    · split
      · simp
      · split
        · simp
        · simp
  · simp

/-- The validation loop never produces a created outcome. -/
theorem validateCodItems_ne_created (db : DB) (items : List ReqItem) (o : Order) :
    validateCodItems db items ≠ some (CodOutcome.created o) := by
  induction items with
  | nil => simp [validateCodItems]
  | cons i rest ih =>
    unfold validateCodItems
    split
    · simp
    · split
      · simp
      · split
        · simp
        · exact ih

/-- C9 amended: the cash-on-delivery route of part_004 clears the
purchasing user's cart exactly when the request carried no `orderItems`
field: whenever a request without that field creates an order, every cart
of the user ends up empty with zeroed totals; and the capture route clears
the cart unconditionally on every successful creation. (With a
client-supplied item list the part_004 route leaves the cart untouched, as
the counterexample shows.) -/
theorem cart_clear_amended :
    (∀ (db : DB) (u n : Nat) (o : Order),
       (codCreateOrder db u none n).1 = CodOutcome.created o →
       ∀ c ∈ (codCreateOrder db u none n).2.carts, c.user = u →
         c.items = [] ∧ c.totalItems = 0 ∧ c.totalPrice = 0) ∧
    (∀ (hmac : String → String → String) (secret ro pi sig : String)
       (u : Nat) (items : List ReqItem) (n : Nat) (db : DB) (o : Order),
       (captureOrder hmac secret ro pi sig u items n db).1 = CaptureOutcome.created o →
       ∀ c ∈ (captureOrder hmac secret ro pi sig u items n db).2.carts, c.user = u →
         c.items = [] ∧ c.totalItems = 0 ∧ c.totalPrice = 0) := by
  constructor
  · intro db u n o h c hc hcu
    rcases hr : codResolveItems db u none with e | items
    · have heq : codCreateOrder db u none n = (e, db) := by
        unfold codCreateOrder
        rw [hr]
      rw [heq] at h
      simp only at h
      rw [h] at hr
      exact absurd hr (codResolveItems_ne_created db u none o)
    · have heq : codCreateOrder db u none n = codFinish db u false items n := by
        unfold codCreateOrder
        rw [hr]
        rfl
      rcases hv : validateCodItems db items with _ | e
      · have heq2 : codFinish db u false items n
            = (CodOutcome.created
                 { oid := n, user := u, orderItems := items.map reqToOrderItem,
                   isPaid := false, isDelivered := false,
                   status := OrderStatus.pending, trackingNumber := none },
               clearCart
                 { db with orders := db.orders ++
                     [{ oid := n, user := u, orderItems := items.map reqToOrderItem,
                        isPaid := false, isDelivered := false,
                        status := OrderStatus.pending, trackingNumber := none }] } u) := by
          unfold codFinish
          rw [hv]
          rfl
        rw [heq, heq2] at hc
        exact clearCart_user _ _ c hc hcu
      · have heq2 : codFinish db u false items n = (e, db) := by
          unfold codFinish
          rw [hv]
        rw [heq, heq2] at h
        simp only at h
        rw [h] at hv
        exact absurd hv (validateCodItems_ne_created db items o)
  · intro hmac secret ro pi sig u items n db o h c hc hcu
    by_cases hs : hmac secret (ro ++ "|" ++ pi) ≠ sig
    · have heq : captureOrder hmac secret ro pi sig u items n db
          = (CaptureOutcome.sigError, db) := by
        unfold captureOrder
        rw [if_pos hs]
      rw [heq] at h
      simp only at h
      exact absurd h (by simp)
    · rcases hb : buildItems db items with e | its
      · cases e with
        | unavailable =>
          have heq : captureOrder hmac secret ro pi sig u items n db
              = (CaptureOutcome.productUnavailable, db) := by
            unfold captureOrder
            rw [if_neg hs, hb]
          rw [heq] at h
          simp only at h
          exact absurd h (by simp)
        | insufficient nm =>
          have heq : captureOrder hmac secret ro pi sig u items n db
              = (CaptureOutcome.insufficientStock nm, db) := by
            unfold captureOrder
            rw [if_neg hs, hb]
          rw [heq] at h
          simp only at h
          exact absurd h (by simp)
      · have heq : captureOrder hmac secret ro pi sig u items n db
            = (CaptureOutcome.created
                 { oid := n, user := u,
                   orderItems := its, isPaid := true, isDelivered := false,
                   status := OrderStatus.processing, trackingNumber := none },
               clearCart
                 { db with
                   orders := db.orders ++
                     [{ oid := n, user := u, orderItems := its, isPaid := true,
                        isDelivered := false, status := OrderStatus.processing,
                        trackingNumber := none }],
                   products := reduceStockList db.products its } u) := by
          unfold captureOrder
          rw [if_neg hs, hb]
        rw [heq] at hc
        exact clearCart_user _ _ c hc hcu

/-- Witness for C9 amended at concrete inputs: a cash-on-delivery request
without an `orderItems` field against `dbCodDemo` (the order is built from
the cart and the cart ends cleared), and a capture request whose signature
matches under a concrete hmac. -/
theorem cart_clear_amended_witness :
    (({ user := 7, items := [], totalItems := 0, totalPrice := 0 } : Cart).items = [] ∧
     ({ user := 7, items := [], totalItems := 0, totalPrice := 0 } : Cart).totalItems = 0 ∧
     ({ user := 7, items := [], totalItems := 0, totalPrice := 0 } : Cart).totalPrice = 0) ∧
    (({ user := 7, items := [], totalItems := 0, totalPrice := 0 } : Cart).items = [] ∧
     ({ user := 7, items := [], totalItems := 0, totalPrice := 0 } : Cart).totalItems = 0 ∧
     ({ user := 7, items := [], totalItems := 0, totalPrice := 0 } : Cart).totalPrice = 0) := by
  constructor
  · exact cart_clear_amended.1 dbCodDemo 7 1
      { oid := 1, user := 7,
        orderItems := [{ product := 1, name := "P", image := "", price := 10,
                         quantity := 2, size := none }],
        isPaid := false, isDelivered := false,
        status := OrderStatus.pending, trackingNumber := none }
      (by decide)
      { user := 7, items := [], totalItems := 0, totalPrice := 0 }
      (by decide) (by decide)
  · exact cart_clear_amended.2 (fun s m => s ++ ":" ++ m) "k" "oid" "pid" "k:oid|pid" 7
      [{ product := 1, name := "P", price := 10, quantity := 1, size := none }] 1
      dbCodDemo
      { oid := 1, user := 7,
        orderItems := [{ product := 1, name := "P", image := "/placeholder.png",
                         price := 10, quantity := 1, size := none }],
        isPaid := true, isDelivered := false,
        status := OrderStatus.processing, trackingNumber := none }
      (by decide)
      { user := 7, items := [], totalItems := 0, totalPrice := 0 }
      (by decide) (by decide)

/-- C9, counterexample: the same cash-on-delivery route called with a
client-supplied item list creates the order but leaves the user's
nonempty cart exactly as it was, refuting the unconditional clearing the
claim states. -/
theorem cod_cart_not_cleared_counterexample :
    (codCreateOrder dbCodDemo 7
        (some [{ product := 1, name := "P", price := 10, quantity := 1, size := none }]) 1).1
      = CodOutcome.created
          { oid := 1, user := 7,
            orderItems := [{ product := 1, name := "P", image := "", price := 10,
                             quantity := 1, size := none }],
            isPaid := false, isDelivered := false,
            status := OrderStatus.pending, trackingNumber := none } ∧
    findCart (codCreateOrder dbCodDemo 7
        (some [{ product := 1, name := "P", price := 10, quantity := 1, size := none }]) 1).2 7
      = some { user := 7, items := [{ product := 1, quantity := 2, size := none }],
               totalItems := 2, totalPrice := 20 } := by
  refine ⟨by decide, by decide⟩

end ECom

namespace ECom

/-- The merge key ignores the quantity field. -/
theorem itemKey_merge (j : CartItem) (q : Nat) :
    itemKey { j with quantity := q } = itemKey j :=
  rfl

/-- Every key present after one merge step was the inserted key or a key
already present. -/
theorem key_insertMerged_mem (i b : CartItem) :
    ∀ acc, b ∈ insertMerged acc i →
      itemKey b = itemKey i ∨ ∃ a ∈ acc, itemKey b = itemKey a := by
  intro acc
  induction acc with
  | nil =>
    intro hb
    simp only [insertMerged, List.mem_singleton] at hb
    subst hb
    exact Or.inl rfl
  | cons j rest ih =>
    intro hb
    unfold insertMerged at hb
    by_cases h : itemKey j = itemKey i
    · rw [if_pos h] at hb
      rcases List.mem_cons.mp hb with hb1 | hb2
      · subst hb1
        exact Or.inr ⟨j, List.mem_cons_self j rest, rfl⟩
      · exact Or.inr ⟨b, List.mem_cons_of_mem j hb2, rfl⟩
    · rw [if_neg h] at hb
      rcases List.mem_cons.mp hb with hb1 | hb2
      · subst hb1
        exact Or.inr ⟨b, List.mem_cons_self b rest, rfl⟩
      · rcases ih hb2 with h1 | ⟨a, ha, h2⟩
        · exact Or.inl h1
        · exact Or.inr ⟨a, List.mem_cons_of_mem j ha, h2⟩

/-- One merge step preserves pairwise-distinct keys. -/
theorem pairwise_insertMerged (i : CartItem) :
    ∀ acc, acc.Pairwise (fun a b => itemKey a ≠ itemKey b) →
      (insertMerged acc i).Pairwise (fun a b => itemKey a ≠ itemKey b) := by
  intro acc
  induction acc with
  | nil =>
    intro _
    simp [insertMerged]
  | cons j rest ih =>
    intro h
    rw [List.pairwise_cons] at h
    obtain ⟨hj, hrest⟩ := h
    unfold insertMerged
    by_cases hk : itemKey j = itemKey i
    · rw [if_pos hk, List.pairwise_cons]
      exact ⟨fun b hb => hj b hb, hrest⟩
    · rw [if_neg hk, List.pairwise_cons]
      refine ⟨?_, ih hrest⟩
      intro b hb
      rcases key_insertMerged_mem i b rest hb with h1 | ⟨a, ha, h2⟩
      · rw [h1]
        exact hk
      · rw [h2]
        exact hj a ha

/-- One merge step adds the inserted quantity to its key and nothing
else. -/
theorem keyQuantity_insertMerged (i : CartItem) (k : Nat × String) :
    ∀ acc, keyQuantity k (insertMerged acc i)
      = keyQuantity k acc + (if itemKey i = k then i.quantity else 0) := by
  intro acc
  induction acc with
  | nil =>
    by_cases h : itemKey i = k <;> simp [insertMerged, keyQuantity, h]
  | cons j rest ih =>
    unfold insertMerged
    by_cases hk : itemKey j = itemKey i
    · rw [if_pos hk]
      by_cases hjk : itemKey j = k
      · have hik : itemKey i = k := hk.symm.trans hjk
        simp only [keyQuantity, itemKey_merge, hjk, hik, if_pos]
        omega
      · have hik : itemKey i ≠ k := fun h => hjk (hk.trans h)
        simp only [keyQuantity, itemKey_merge, hjk, hik, if_neg, not_false_iff]
        omega
    · rw [if_neg hk]
      simp only [keyQuantity, ih]
      omega

/-- The dedup pass keeps keys pairwise distinct, starting from any
key-distinct accumulator. -/
theorem pairwise_foldl_insertMerged (items : List CartItem) :
    ∀ acc, acc.Pairwise (fun a b => itemKey a ≠ itemKey b) →
      (items.foldl insertMerged acc).Pairwise (fun a b => itemKey a ≠ itemKey b) := by
  induction items with
  | nil => intro acc h; exact h
  | cons i rest ih =>
    intro acc h
    exact ih (insertMerged acc i) (pairwise_insertMerged i acc h)

/-- The dedup pass preserves the total quantity of every key. -/
theorem keyQuantity_foldl_insertMerged (k : Nat × String) (items : List CartItem) :
    ∀ acc, keyQuantity k (items.foldl insertMerged acc)
      = keyQuantity k acc + keyQuantity k items := by
  induction items with
  | nil => intro acc; simp [keyQuantity]
  | cons i rest ih =>
    intro acc
    simp only [List.foldl_cons, ih, keyQuantity_insertMerged, keyQuantity]
    omega

/-- C10: every successful cart persist leaves the stored line items with
pairwise-distinct `(product, size)` keys, and the total quantity of every
key is the sum of the quantities the pre-merge lines carried for it, so
duplicate lines are merged by summing, never dropped or duplicated. -/
theorem cart_dedup_law (db : DB) (c c' : Cart) (h : cartPreSave db c = some c') :
    c'.items.Pairwise (fun a b => itemKey a ≠ itemKey b) ∧
    ∀ k, keyQuantity k c'.items = keyQuantity k c.items := by
  simp only [cartPreSave] at h
  split at h
  · have h2 := Option.some.inj h
    subst h2
    constructor
    · exact pairwise_foldl_insertMerged c.items [] List.Pairwise.nil
    · intro k
      have h3 := keyQuantity_foldl_insertMerged k c.items []
      simpa [keyQuantity] using h3
  · exact absurd h (by simp)

/-- Witness for C10 at a concrete input: the same `(product, size)` line
added twice through `addItem` with quantities 2 and 3, then persisted: the
stored cart holds exactly one line with quantity 5, its keys are pairwise
distinct, and the key `(1, M)` carries quantity 5 before and after. -/
theorem cart_dedup_law_witness :
    cartPreSave dbDedupDemo cartDedupDemo
      = some { user := 7, items := [{ product := 1, quantity := 5, size := some "M" }],
               totalItems := 5, totalPrice := 50 } ∧
    ({ user := 7, items := [{ product := 1, quantity := 5, size := some "M" }],
       totalItems := 5, totalPrice := 50 } : Cart).items.Pairwise
      (fun a b => itemKey a ≠ itemKey b) ∧
    keyQuantity (1, "M")
        ({ user := 7, items := [{ product := 1, quantity := 5, size := some "M" }],
           totalItems := 5, totalPrice := 50 } : Cart).items
      = keyQuantity (1, "M") cartDedupDemo.items :=
  ⟨by decide,
   (cart_dedup_law dbDedupDemo cartDedupDemo
     { user := 7, items := [{ product := 1, quantity := 5, size := some "M" }],
       totalItems := 5, totalPrice := 50 } (by decide)).1,
   (cart_dedup_law dbDedupDemo cartDedupDemo
     { user := 7, items := [{ product := 1, quantity := 5, size := some "M" }],
       totalItems := 5, totalPrice := 50 } (by decide)).2 (1, "M")⟩

end ECom
